import Mathlib

/-!
Verification of the invocation/reinvocation control loop of the
cloudformation-cli-python-plugin support library.

The embedding follows `src/cloudformation_cli_python_lib/resource.py` and
`src/cloudformation_cli_python_lib/callback.py`.  Types that live in modules
outside the provided sources (`interface.py`, `exceptions.py`, `utils.py`,
`scheduler.py`) are modelled from the specification where indicated; the
control-flow and arithmetic of the loop itself are translated directly from
`resource.py`.
-/

namespace CfnPlugin

/-- Modelled from the spec: `Action` is the enumeration
{CREATE, READ, UPDATE, DELETE, LIST} defined in `interface.py` (outside src/). -/
inductive Action where
  | CREATE
  | READ
  | UPDATE
  | DELETE
  | LIST
deriving DecidableEq, BEq, Repr

/-- The enumeration member's name, as used in messages. -/
def Action.name : Action → String
  | .CREATE => "CREATE"
  | .READ => "READ"
  | .UPDATE => "UPDATE"
  | .DELETE => "DELETE"
  | .LIST => "LIST"

/-- Python's `str()` of an enum member renders as `Action.NAME`. -/
def Action.pyStr (a : Action) : String := "Action." ++ a.name

/-- Modelled from the spec: `OperationStatus` is the enumeration
{PENDING, IN_PROGRESS, SUCCESS, FAILED} defined in `interface.py` (outside src/). -/
inductive OperationStatus where
  | PENDING
  | IN_PROGRESS
  | SUCCESS
  | FAILED
deriving DecidableEq, BEq, Repr

/-- The enumeration member's name. -/
def OperationStatus.name : OperationStatus → String
  | .PENDING => "PENDING"
  | .IN_PROGRESS => "IN_PROGRESS"
  | .SUCCESS => "SUCCESS"
  | .FAILED => "FAILED"

/-- Modelled from the spec: closed set of named failure categories defined in
`interface.py` (outside src/); the spec names InternalFailure, InvalidRequest,
NotFound, AlreadyExists, Throttling, ServiceTimeout among them. -/
inductive HandlerErrorCode where
  | InternalFailure
  | InvalidRequest
  | NotFound
  | AlreadyExists
  | Throttling
  | ServiceTimeout
deriving DecidableEq, BEq, Repr

/-- The enumeration member's name. -/
def HandlerErrorCode.name : HandlerErrorCode → String
  | .InternalFailure => "InternalFailure"
  | .InvalidRequest => "InvalidRequest"
  | .NotFound => "NotFound"
  | .AlreadyExists => "AlreadyExists"
  | .Throttling => "Throttling"
  | .ServiceTimeout => "ServiceTimeout"

/-- JSON-like values stored in the request-context and callback-context
dictionaries (Python `dict`s of the inbound payload). -/
inductive Value where
  | vNull
  | vInt (n : Int)
  | vStr (s : String)
  | vMap (m : List (String × Value))

/-- A Python `dict` keyed by strings, in insertion order. -/
abbrev CtxMap := List (String × Value)

/-- `d.get(k)`: first binding of `k`, if any. -/
def ctxGet (ctx : CtxMap) (k : String) : Option Value :=
  match ctx with
  | [] => none
  | (k', v) :: rest => if k' == k then some v else ctxGet rest k

/-- `d[k] = v`: replace the binding in place, or append a fresh one. -/
def ctxSet (ctx : CtxMap) (k : String) (v : Value) : CtxMap :=
  match ctx with
  | [] => [(k, v)]
  | (k', v') :: rest => if k' == k then (k, v) :: rest else (k', v') :: ctxSet rest k v

/-- `d.get(k, default)` followed by integer use, as in
`reinvoke_context.get("invocation", 0) + 1`: an absent key yields the
default, a non-integer value is a Python `TypeError`. -/
def pyGetIntDefault (ctx : CtxMap) (k : String) (d : Int) : Except String Int :=
  match ctxGet ctx k with
  | none => .ok d
  | some (.vInt n) => .ok n
  | some _ => .error "TypeError"

/-- `d.get(k, "")` used as a string: an absent or non-string value yields `""`
(the source only ever stores strings under these keys). -/
def ctxGetStr (ctx : CtxMap) (k : String) : String :=
  match ctxGet ctx k with
  | some (.vStr s) => s
  | _ => ""

/-- A resource-model snapshot; its internal structure is opaque to the loop. -/
abbrev ResourceModel := List (String × Value)

/-- Modelled from the spec: `ProgressEvent` of `interface.py` (outside src/),
the immutable outcome of one invocation step, with `callbackDelaySeconds` a
non-negative integer defaulting to 0. -/
structure ProgressEvent where
  status : OperationStatus
  errorCode : Option HandlerErrorCode := none
  message : String := ""
  resourceModel : Option ResourceModel := none
  callbackContext : Option CtxMap := none
  callbackDelaySeconds : Nat := 0

/-- Modelled from the spec: `ProgressEvent.failed(code, msg)` builds a
terminal FAILED event carrying the given error code and message. -/
def ProgressEvent.failed (code : HandlerErrorCode) (msg : String) : ProgressEvent :=
  { status := .FAILED, errorCode := some code, message := msg }

/-- Modelled from the spec: a structured handler error (`_HandlerError`
hierarchy of `exceptions.py`, outside src/) is keyed by a `HandlerErrorCode`
and carries a message. -/
structure HandlerError where
  errorCode : HandlerErrorCode
  message : String

/-- Modelled from the spec: `to_progress_event` converts a structured error
directly to a terminal FAILED progress event carrying its code and message. -/
def HandlerError.to_progress_event (e : HandlerError) : ProgressEvent :=
  ProgressEvent.failed e.errorCode e.message

/-- The Python exception channel as seen by the loop's `except` clauses:
a structured `_HandlerError`, any other `Exception`, or a non-`Exception`
`BaseException`. -/
inductive PyError where
  | handlerError (e : HandlerError)
  | exn (msg : String)
  | baseExn (msg : String)

/-- Modelled from the spec: the modelled handler request built by
`UnmodelledRequest(...).to_modelled` (`utils.py`, outside src/) from the
fields the source passes at lines 185-190 of `resource.py`. -/
structure BaseResourceHandlerRequest where
  clientRequestToken : String
  desiredResourceState : Option ResourceModel
  previousResourceState : Option ResourceModel
  logicalResourceIdentifier : Option String

/-- Modelled from the spec: the deserialized inbound payload
(`HandlerRequest` of `utils.py`, outside src/) restricted to the fields the
control loop reads.  An absent `requestContext` deserializes to the empty
mapping. -/
structure HandlerRequest where
  action : Action
  bearerToken : String
  requestContext : CtxMap
  resourceProperties : ResourceModel
  previousResourceProperties : Option ResourceModel
  logicalResourceId : Option String
  awsAccountId : String
  resourceType : String

/-- The construction at `resource.py` lines 185-190: the modelled request is
built from the inbound payload's token and resource states. -/
def toModelled (e : HandlerRequest) : BaseResourceHandlerRequest :=
  { clientRequestToken := e.bearerToken
  , desiredResourceState := some e.resourceProperties
  , previousResourceState := e.previousResourceProperties
  , logicalResourceIdentifier := e.logicalResourceId }

/-- The execution environment's context object: remaining-budget query and
the stable self-identifier used for rescheduling. -/
structure LambdaContext where
  remainingMs : Int
  invokedFunctionArn : String

/-- Observable calls to the external collaborators, in program order. -/
inductive Effect where
  | report (bearerToken : String) (errorCode : Option HandlerErrorCode)
      (opStatus : OperationStatus) (currentOpStatus : Option OperationStatus)
      (model : Option ResourceModel) (message : String)
  | cleanup (ruleName targetId : String)
  | reschedule (functionArn : String) (minutes : Nat)
  | sleepSecs (n : Nat)
  | handlerCalled (a : Action)
  | metricInvocation (a : Action)
  | metricDuration (a : Action)
  | metricException (a : Action)

/-- `MUTATING_ACTIONS` from `resource.py` line 36. -/
def MUTATING_ACTIONS : List Action := [.CREATE, .UPDATE, .DELETE]

/-- `INVOCATION_TIMEOUT_MS` from `resource.py` line 37. -/
def INVOCATION_TIMEOUT_MS : Int := 60000

/-- `Resource.schedule_reinvocation` (`resource.py` lines 79-108), with its
effects made explicit.  Returns the `invoke` flag, the handler request with
its request context mutated, and the sleep or reschedule calls performed;
a non-integer stored invocation count is the Python `TypeError` raised by
`... + 1`. -/
def schedule_reinvocation (handler_request : HandlerRequest)
    (handler_response : ProgressEvent) (context : LambdaContext) :
    Except PyError (Bool × HandlerRequest × List Effect) :=
  if handler_response.status ≠ OperationStatus.IN_PROGRESS then
    .ok (false, handler_request, [])
  else
    match pyGetIntDefault handler_request.requestContext "invocation" 0 with
    | .error m => .error (.exn m)
    | .ok prev =>
      let reinvoke_context := ctxSet handler_request.requestContext "invocation" (.vInt (prev + 1))
      let handler_request' := { handler_request with requestContext := reinvoke_context }
      let callback_delay_s := handler_response.callbackDelaySeconds
      let remaining_ms := context.remainingMs
      let needed_ms_remaining : Int := (callback_delay_s : Int) * 1200 + INVOCATION_TIMEOUT_MS
      if callback_delay_s < 60 ∧ remaining_ms > needed_ms_remaining then
        .ok (true, handler_request', [.sleepSecs callback_delay_s])
      else
        .ok (false, handler_request',
          [.reschedule context.invokedFunctionArn (callback_delay_s / 60)])

/-- A registered handler function: `HandlerSignature` of `resource.py`
line 39.  The session and request are passed through; the handler may raise. -/
abbrev Handler :=
  Option Unit → BaseResourceHandlerRequest → CtxMap → Except PyError ProgressEvent

/-- The handler registry `self._handlers` as a lookup; `none` is a
`KeyError` on `self._handlers[action]`. -/
abbrev HandlerMap := Action → Option Handler

/-- `Resource._invoke_handler` (`resource.py` lines 110-128), with the call
of the registered handler recorded as an effect.  A missing handler yields a
FAILED/InternalFailure progress event; an IN_PROGRESS result from a
non-mutating action raises a structured `InternalFailure`. -/
def invoke_handler (handlers : HandlerMap) (session : Option Unit)
    (request : BaseResourceHandlerRequest) (action : Action)
    (callback_context : CtxMap) : Except PyError ProgressEvent × List Effect :=
  match handlers action with
  | none =>
    (.ok (ProgressEvent.failed .InternalFailure ("No handler for " ++ action.pyStr)), [])
  | some handler =>
    match handler session request callback_context with
    | .error e => (.error e, [.handlerCalled action])
    | .ok progress =>
      let is_in_progress := progress.status == OperationStatus.IN_PROGRESS
      let is_mutable := MUTATING_ACTIONS.contains action
      if is_in_progress && !is_mutable then
        (.error (.handlerError
          { errorCode := .InternalFailure
          , message := "READ and LIST handlers must return synchronously." }),
         [.handlerCalled action])
      else
        (.ok progress, [.handlerCalled action])

/-- Outcome of one iteration of the `while invoke:` body. -/
inductive IterResult where
  | raised (e : PyError) (effs : List Effect)
  | finished (progress : ProgressEvent) (ev : HandlerRequest) (effs : List Effect)
  | again (ev : HandlerRequest) (cb : CtxMap) (effs : List Effect)

/-- The effects emitted by the iteration. -/
def IterResult.effs : IterResult → List Effect
  | .raised _ effs => effs
  | .finished _ _ effs => effs
  | .again _ _ effs => effs

/-- Lines 271-273 of `resource.py`: if the progress event carries a truthy
(non-empty) callback context, it becomes the next iteration's callback and is
persisted under `"callbackContext"` in the request context. -/
def persistCallback (progress : ProgressEvent) (ev : HandlerRequest) (cb : CtxMap) :
    CtxMap × HandlerRequest :=
  match progress.callbackContext with
  | some c =>
    if c.isEmpty then (cb, ev)
    else (c, { ev with requestContext := ctxSet ev.requestContext "callbackContext" (.vMap c) })
  | none => (cb, ev)

/-- One iteration of the loop body of `Resource.__call__`
(`resource.py` lines 256-286): invocation metric, dispatch (errors re-raised
after the duration and exception metrics), callback-context persistence,
the mutating-action progress report, and the reinvocation decision. -/
def loopIter (handlers : HandlerMap) (context : LambdaContext) (action : Action)
    (request : BaseResourceHandlerRequest) (ev : HandlerRequest) (cb : CtxMap) :
    IterResult :=
  let effs0 : List Effect := [.metricInvocation action]
  match invoke_handler handlers (some ()) request action cb with
  | (.error e, effsH) =>
    .raised e (effs0 ++ effsH ++ [.metricDuration action, .metricException action])
  | (.ok progress, effsH) =>
    let effs1 := effs0 ++ effsH ++ [Effect.metricDuration action]
    let cb' := (persistCallback progress ev cb).1
    let ev' := (persistCallback progress ev cb).2
    let effs2 := effs1 ++
      (if MUTATING_ACTIONS.contains ev'.action then
        [Effect.report ev'.bearerToken progress.errorCode progress.status
          (some .IN_PROGRESS) progress.resourceModel progress.message]
      else [])
    match schedule_reinvocation ev' progress context with
    | .error e => .raised e effs2
    | .ok (invoke, ev'', effsS) =>
      if invoke then .again ev'' cb' (effs2 ++ effsS)
      else .finished progress ev'' (effs2 ++ effsS)

/-- The `while invoke:` loop of `Resource.__call__`, fuel-indexed so the
recursion is evident; `none` means the bound was exhausted before the loop
exited (a model artifact, never the program's behaviour). -/
def runLoop (handlers : HandlerMap) (context : LambdaContext) (action : Action)
    (request : BaseResourceHandlerRequest) (fuel : Nat) (ev : HandlerRequest)
    (cb : CtxMap) :
    Option (Except PyError (ProgressEvent × HandlerRequest)) × List Effect :=
  match fuel with
  | 0 => (none, [])
  | fuel' + 1 =>
    match loopIter handlers context action request ev cb with
    | .raised e effs => (some (.error e), effs)
    | .finished p ev' effs => (some (.ok (p, ev')), effs)
    | .again ev' cb' effs =>
      let rest := runLoop handlers context action request fuel' ev' cb'
      (rest.1, effs ++ rest.2)

/-- An inbound event as the entrypoint sees it: either a payload that the
(spec-modelled, outside src/) deserializers reject — carrying whatever
`event_data.get("bearerToken")` would find, and the raised error's text and
type name — or a well-formed deserialized `HandlerRequest`. -/
inductive RawEvent where
  | malformed (rawBearerToken : Option String) (errMsg : String) (errType : String)
  | wellFormed (e : HandlerRequest)

/-- `event_data.get("bearerToken")` on the raw payload (`resource.py`
line 297). -/
def RawEvent.getBearerToken : RawEvent → Option String
  | .malformed bt _ _ => bt
  | .wellFormed e => some e.bearerToken

/-- The callback context extracted at `resource.py` line 206:
`event.requestContext.get("callbackContext", {})`. -/
def initialCallback (e : HandlerRequest) : CtxMap :=
  match ctxGet e.requestContext "callbackContext" with
  | some (.vMap m) => m
  | _ => []

/-- `Resource._parse_request` (`resource.py` lines 171-216): any failure of
deserialization, credential/session construction or `Action[...]` lookup
(all spec-modelled, outside src/) is wrapped as
`InvalidRequest(f"{e} ({type(e).__name__})")`; success yields the modelled
request, the action, the callback context and the deserialized event. -/
def parse_request (raw : RawEvent) :
    Except PyError (BaseResourceHandlerRequest × Action × CtxMap × HandlerRequest) :=
  match raw with
  | .malformed _ msg ty =>
    .error (.handlerError
      { errorCode := .InvalidRequest, message := msg ++ " (" ++ ty ++ ")" })
  | .wellFormed e => .ok (toModelled e, e.action, initialCallback e, e)

/-- The translation performed by the `except` clauses of `Resource.__call__`
(lines 287-295): a structured `_HandlerError` becomes its own progress
event, any other `Exception` or `BaseException` a FAILED/InternalFailure
event with its message. -/
def PyError.toCaughtProgress : PyError → ProgressEvent
  | .handlerError e => e.to_progress_event
  | .exn m => ProgressEvent.failed .InternalFailure m
  | .baseExn m => ProgressEvent.failed .InternalFailure m

/-- The body of `Resource.__call__` (`resource.py` lines 223-295) up to, but
not including, the final serialization: parse, the first-invocation
acknowledgment or re-invoke trigger cleanup (lines 237-254), the loop, and
the three catch-all clauses.  Log-forwarding setup and the metrics-publisher
construction carry no control-flow and are abstracted. -/
def call_inner (handlers : HandlerMap) (fuel : Nat) (event_data : RawEvent)
    (context : LambdaContext) : Option ProgressEvent × List Effect :=
  match parse_request event_data with
  | .error e => (some e.toCaughtProgress, [])
  | .ok (request, action, callback, ev) =>
    let preEffs : List Effect :=
      if ev.requestContext.isEmpty then
        [.report ev.bearerToken none .IN_PROGRESS (some .PENDING) none ""]
      else
        [.cleanup (ctxGetStr ev.requestContext "cloudWatchEventsRuleName")
          (ctxGetStr ev.requestContext "cloudWatchEventsTargetId")]
    let r := runLoop handlers context action request fuel ev callback
    (match r.1 with
     | none => none
     | some (.ok (p, _)) => some p
     | some (.error e) => some e.toCaughtProgress,
     preEffs ++ r.2)

/-- The serialized outbound response: a JSON object. -/
abbrev SerializedResponse := List (String × Value)

/-- Wrap an optional bearer token as a JSON value (`None` serializes to
`null`). -/
def optToken : Option String → Value
  | some s => .vStr s
  | none => .vNull

/-- Modelled from the spec: `ProgressEvent._serialize` of `interface.py`
(outside src/) per the outbound schema — status, then the optional
errorCode, message, optional resourceModel, optional callbackContext,
callbackDelaySeconds; with `to_response` the bearer token passed by the
caller is added, otherwise no bearerToken field exists. -/
def ProgressEvent.serialize (p : ProgressEvent) (to_response : Bool)
    (bearer_token : Option String) : SerializedResponse :=
  [("status", .vStr p.status.name)]
  ++ (match p.errorCode with
      | some c => [("errorCode", Value.vStr c.name)]
      | none => [])
  ++ [("message", .vStr p.message)]
  ++ (match p.resourceModel with
      | some m => [("resourceModel", Value.vMap m)]
      | none => [])
  ++ (match p.callbackContext with
      | some c => [("callbackContext", Value.vMap c)]
      | none => [])
  ++ [("callbackDelaySeconds", .vInt p.callbackDelaySeconds)]
  ++ (if to_response then [("bearerToken", optToken bearer_token)] else [])

/-- The `_ensure_serialize` decorator (`resource.py` lines 44-61) over the
outcome of the wrapped entrypoint and of `json.dumps`: if either raises,
the response is replaced wholesale by the plain serialization (no response
fields, no bearer token) of a FAILED/InternalFailure event; otherwise
`json.loads(json.dumps(response))` round-trips to the response itself. -/
def ensure_serialize (entry : Except String SerializedResponse)
    (dumps : SerializedResponse → Except String String) : SerializedResponse :=
  match entry with
  | .error e => (ProgressEvent.failed .InternalFailure e).serialize false none
  | .ok response =>
    match dumps response with
    | .error e => (ProgressEvent.failed .InternalFailure e).serialize false none
    | .ok _ => response

/-- The live entrypoint: `Resource.__call__` wrapped by `_ensure_serialize`,
with the final serialization at lines 296-298 passing
`to_response=True, bearer_token=event_data.get("bearerToken")`. -/
def entrypoint (handlers : HandlerMap) (fuel : Nat)
    (dumps : SerializedResponse → Except String String) (event_data : RawEvent)
    (context : LambdaContext) : Option SerializedResponse × List Effect :=
  let r := call_inner handlers fuel event_data context
  match r.1 with
  | none => (none, r.2)
  | some p =>
    (some (ensure_serialize (.ok (p.serialize true event_data.getBearerToken)) dumps), r.2)

/-- Whether an effect is a call to the progress sink. -/
def Effect.isReport : Effect → Bool
  | .report _ _ _ _ _ _ => true
  | _ => false

/-- Whether an effect is the start acknowledgment: a progress report whose
current operation status is PENDING. -/
def Effect.isAck : Effect → Bool
  | .report _ _ _ (some .PENDING) _ _ => true
  | _ => false

/-- Whether an effect is a trigger cleanup call. -/
def Effect.isCleanup : Effect → Bool
  | .cleanup _ _ => true
  | _ => false

/-- Whether an effect is an invocation of a registered handler function. -/
def Effect.isHandlerCall : Effect → Bool
  | .handlerCalled _ => true
  | _ => false

/-- Checks that a serialized response has the fields every outbound response
carries: a valid status name, a message string and an integer
callbackDelaySeconds. -/
def responseSchemaCore (r : SerializedResponse) : Bool :=
  (match ctxGet r "status" with
   | some (.vStr s) => ["PENDING", "IN_PROGRESS", "SUCCESS", "FAILED"].contains s
   | _ => false)
  && (match ctxGet r "message" with
      | some (.vStr _) => true
      | _ => false)
  && (match ctxGet r "callbackDelaySeconds" with
      | some (.vInt _) => true
      | _ => false)

section Fixtures

/-- A sample deserialized inbound event used in concrete instantiations:
a fresh UPDATE operation. -/
def sampleEv : HandlerRequest :=
  { action := .UPDATE, bearerToken := "token-1", requestContext := []
  , resourceProperties := [("Name", .vStr "thing")]
  , previousResourceProperties := none, logicalResourceId := some "MyResource"
  , awsAccountId := "123456789012", resourceType := "Org::Svc::Thing" }

/-- A resumed variant of the sample event, carrying a request context. -/
def resumedEv : HandlerRequest :=
  { sampleEv with requestContext :=
      [("invocation", .vInt 3), ("cloudWatchEventsRuleName", .vStr "rule-1"),
       ("cloudWatchEventsTargetId", .vStr "target-1")] }

/-- A sample execution context with a ten-minute remaining budget. -/
def sampleCtx : LambdaContext :=
  { remainingMs := 600000, invokedFunctionArn := "arn:aws:lambda:fn" }

/-- The modelled request derived from the sample event. -/
def sampleRequest : BaseResourceHandlerRequest := toModelled sampleEv

/-- A handler that completes immediately with SUCCESS. -/
def successHandler : Handler :=
  fun _ _ _ => .ok { status := .SUCCESS, message := "done" }

/-- A registry with the success handler registered for UPDATE only. -/
def updateHandlers : HandlerMap :=
  fun a => if a == Action.UPDATE then some successHandler else none

/-- A handler that (illegally, for READ) reports IN_PROGRESS. -/
def readAsyncHandler : Handler :=
  fun _ _ _ => .ok { status := OperationStatus.IN_PROGRESS }

/-- A registry with the asynchronous handler registered for READ. -/
def readAsyncHandlers : HandlerMap :=
  fun a => if a == Action.READ then some readAsyncHandler else none

/-- A registry with no handler at all. -/
def emptyHandlers : HandlerMap := fun _ => none

/-- A handler that raises a structured NotFound error. -/
def notFoundHandler : Handler :=
  fun _ _ _ => .error (.handlerError { errorCode := .NotFound, message := "gone" })

/-- A registry with the NotFound-raising handler registered for READ. -/
def readErrHandlers : HandlerMap :=
  fun a => if a == Action.READ then some notFoundHandler else none

/-- The READ variant of the sample event. -/
def readEv : HandlerRequest := { sampleEv with action := .READ }

end Fixtures

section Lemmas

/-- Setting a key makes it readable back. -/
theorem ctxGet_ctxSet_self (ctx : CtxMap) (k : String) (v : Value) :
    ctxGet (ctxSet ctx k v) k = some v := by
  induction ctx with
  | nil => simp [ctxGet, ctxSet]
  | cons hd tl ih =>
    obtain ⟨k', v'⟩ := hd
    by_cases h : k' == k
    · simp [ctxGet, ctxSet, h]
    · simp only [ctxSet, h, Bool.false_eq_true, if_false, ctxGet, ih]

/-- Reading back an integer just set. -/
theorem pyGetIntDefault_ctxSet (ctx : CtxMap) (k : String) (n d : Int) :
    pyGetIntDefault (ctxSet ctx k (.vInt n)) k d = .ok n := by
  simp [pyGetIntDefault, ctxGet_ctxSet_self]

/-- The reinvocation decision never changes the action or bearer token of
the request, and its effects are at most a single sleep or reschedule. -/
theorem schedule_shape {ev : HandlerRequest} {p : ProgressEvent} {c : LambdaContext}
    {b : Bool} {ev' : HandlerRequest} {effs : List Effect}
    (h : schedule_reinvocation ev p c = .ok (b, ev', effs)) :
    ev'.action = ev.action ∧ ev'.bearerToken = ev.bearerToken ∧
      (effs = [] ∨ (∃ d, effs = [Effect.sleepSecs d]) ∨
        ∃ a m, effs = [Effect.reschedule a m]) := by
  unfold schedule_reinvocation at h
  split at h
  · simp only [Except.ok.injEq, Prod.mk.injEq] at h
    obtain ⟨-, h2, h3⟩ := h
    subst h2; subst h3
    exact ⟨rfl, rfl, Or.inl rfl⟩
  · cases hg : pyGetIntDefault ev.requestContext "invocation" 0 with
    | error m => rw [hg] at h; cases h
    | ok prev =>
      rw [hg] at h
      dsimp only at h
      split at h
      · simp only [Except.ok.injEq, Prod.mk.injEq] at h
        obtain ⟨-, h2, h3⟩ := h
        subst h2; subst h3
        exact ⟨rfl, rfl, Or.inr (Or.inl ⟨_, rfl⟩)⟩
      · simp only [Except.ok.injEq, Prod.mk.injEq] at h
        obtain ⟨-, h2, h3⟩ := h
        subst h2; subst h3
        exact ⟨rfl, rfl, Or.inr (Or.inr ⟨_, _, rfl⟩)⟩

/-- The dispatcher's effects are at most the single handler call. -/
theorem invoke_handler_effs (handlers : HandlerMap) (s : Option Unit)
    (r : BaseResourceHandlerRequest) (a : Action) (cb : CtxMap) :
    (invoke_handler handlers s r a cb).2 = [] ∨
      (invoke_handler handlers s r a cb).2 = [Effect.handlerCalled a] := by
  unfold invoke_handler
  cases handlers a with
  | none => exact Or.inl rfl
  | some handler =>
    dsimp only
    cases handler s r cb with
    | error e => exact Or.inr rfl
    | ok p =>
      dsimp only
      split <;> exact Or.inr rfl

/-- Persisting the callback context changes neither action nor bearer
token. -/
theorem persistCallback_preserves (p : ProgressEvent) (ev : HandlerRequest)
    (cb : CtxMap) :
    (persistCallback p ev cb).2.action = ev.action ∧
      (persistCallback p ev cb).2.bearerToken = ev.bearerToken := by
  unfold persistCallback
  cases p.callbackContext with
  | none => exact ⟨rfl, rfl⟩
  | some c =>
    dsimp only
    split <;> exact ⟨rfl, rfl⟩

/-- A continuing iteration never changes the request's action. -/
theorem loopIter_again_action {handlers : HandlerMap} {c : LambdaContext}
    {a : Action} {r : BaseResourceHandlerRequest} {ev : HandlerRequest}
    {cb : CtxMap} {ev' : HandlerRequest} {cb' : CtxMap} {effs : List Effect}
    (h : loopIter handlers c a r ev cb = .again ev' cb' effs) :
    ev'.action = ev.action := by
  unfold loopIter at h
  cases hI : invoke_handler handlers (some ()) r a cb with
  | mk res effsH =>
    rw [hI] at h
    cases res with
    | error e => cases h
    | ok p =>
      simp only [] at h
      cases hs : schedule_reinvocation (persistCallback p ev cb).2 p c with
      | error e2 => rw [hs] at h; cases h
      | ok val =>
        obtain ⟨invoke, ev'', effsS⟩ := val
        rw [hs] at h
        cases invoke with
        | false => cases h
        | true =>
          cases h
          rw [(schedule_shape hs).1, (persistCallback_preserves p ev cb).1]

/-- An iteration whose dispatch succeeds emits exactly one progress report
when the request's action is mutating — carrying the progress event's error
code, status, resource model and message — and none otherwise. -/
theorem loopIter_reports {handlers : HandlerMap} {c : LambdaContext} {a : Action}
    {r : BaseResourceHandlerRequest} {p : ProgressEvent} {effsH : List Effect}
    (ev : HandlerRequest) (cb : CtxMap)
    (h : invoke_handler handlers (some ()) r a cb = (.ok p, effsH)) :
    (loopIter handlers c a r ev cb).effs.filter Effect.isReport =
      (if MUTATING_ACTIONS.contains ev.action then
        [Effect.report ev.bearerToken p.errorCode p.status (some .IN_PROGRESS)
          p.resourceModel p.message]
      else []) := by
  have hE := invoke_handler_effs handlers (some ()) r a cb
  rw [h] at hE
  dsimp only at hE
  obtain ⟨ha, hb⟩ := persistCallback_preserves p ev cb
  unfold loopIter
  rw [h]
  dsimp only
  rw [ha, hb]
  cases hs : schedule_reinvocation (persistCallback p ev cb).2 p c with
  | error e2 =>
    dsimp only [IterResult.effs]
    rcases hE with hE | hE <;> subst hE <;>
      by_cases hm : MUTATING_ACTIONS.contains ev.action = true <;>
      simp [hm, Effect.isReport]
  | ok val =>
    obtain ⟨invoke, ev'', effsS⟩ := val
    rcases (schedule_shape hs).2.2 with hS | ⟨d, hS⟩ | ⟨arn, m, hS⟩ <;> subst hS <;>
      cases invoke <;>
      dsimp only [IterResult.effs] <;>
      rcases hE with hE | hE <;> subst hE <;>
      by_cases hm : MUTATING_ACTIONS.contains ev.action = true <;>
      simp [hm, Effect.isReport]

/-- An iteration for a non-mutating request emits no progress report at
all, whatever the dispatch outcome. -/
theorem loopIter_nonmut {handlers : HandlerMap} {c : LambdaContext} {a : Action}
    {r : BaseResourceHandlerRequest} (ev : HandlerRequest) (cb : CtxMap)
    (hmut : MUTATING_ACTIONS.contains ev.action = false) :
    (loopIter handlers c a r ev cb).effs.filter Effect.isReport = [] := by
  have hE := invoke_handler_effs handlers (some ()) r a cb
  cases hI : invoke_handler handlers (some ()) r a cb with
  | mk res effsH =>
    rw [hI] at hE
    dsimp only at hE
    cases res with
    | error e =>
      unfold loopIter
      rw [hI]
      dsimp only [IterResult.effs]
      rcases hE with hE | hE <;> subst hE <;> simp [Effect.isReport]
    | ok p =>
      have hm : MUTATING_ACTIONS.contains (persistCallback p ev cb).2.action = false := by
        rw [(persistCallback_preserves p ev cb).1]; exact hmut
      unfold loopIter
      rw [hI]
      dsimp only
      rw [hm]
      cases hs : schedule_reinvocation (persistCallback p ev cb).2 p c with
      | error e2 =>
        dsimp only [IterResult.effs]
        rcases hE with hE | hE <;> subst hE <;> simp [Effect.isReport]
      | ok val =>
        obtain ⟨invoke, ev'', effsS⟩ := val
        rcases (schedule_shape hs).2.2 with hS | ⟨d, hS⟩ | ⟨arn, m, hS⟩ <;> subst hS <;>
          cases invoke <;>
          dsimp only [IterResult.effs] <;>
          rcases hE with hE | hE <;> subst hE <;> simp [Effect.isReport]

/-- No iteration ever emits a start acknowledgment (its reports carry
current status IN_PROGRESS, not PENDING) or a trigger cleanup. -/
theorem loopIter_no_ack_cleanup (handlers : HandlerMap) (c : LambdaContext)
    (a : Action) (r : BaseResourceHandlerRequest) (ev : HandlerRequest)
    (cb : CtxMap) :
    (loopIter handlers c a r ev cb).effs.filter Effect.isAck = [] ∧
      (loopIter handlers c a r ev cb).effs.filter Effect.isCleanup = [] := by
  have hE := invoke_handler_effs handlers (some ()) r a cb
  cases hI : invoke_handler handlers (some ()) r a cb with
  | mk res effsH =>
    rw [hI] at hE
    dsimp only at hE
    cases res with
    | error e =>
      unfold loopIter
      rw [hI]
      dsimp only [IterResult.effs]
      rcases hE with hE | hE <;> subst hE <;>
        exact ⟨by simp [Effect.isAck], by simp [Effect.isCleanup]⟩
    | ok p =>
      unfold loopIter
      rw [hI]
      dsimp only
      cases hs : schedule_reinvocation (persistCallback p ev cb).2 p c with
      | error e2 =>
        dsimp only [IterResult.effs]
        rcases hE with hE | hE <;> subst hE <;>
          by_cases hm : MUTATING_ACTIONS.contains (persistCallback p ev cb).2.action = true <;>
          exact ⟨by simp [hm, Effect.isAck], by simp [hm, Effect.isCleanup]⟩
      | ok val =>
        obtain ⟨invoke, ev'', effsS⟩ := val
        rcases (schedule_shape hs).2.2 with hS | ⟨d, hS⟩ | ⟨arn, m, hS⟩ <;> subst hS <;>
          cases invoke <;>
          dsimp only [IterResult.effs] <;>
          rcases hE with hE | hE <;> subst hE <;>
          by_cases hm : MUTATING_ACTIONS.contains (persistCallback p ev cb).2.action = true <;>
          exact ⟨by simp [hm, Effect.isAck], by simp [hm, Effect.isCleanup]⟩

/-- Over any number of iterations, a non-mutating request never produces a
progress report. -/
theorem runLoop_no_report {handlers : HandlerMap} {c : LambdaContext}
    {a : Action} {r : BaseResourceHandlerRequest} :
    ∀ (fuel : Nat) (ev : HandlerRequest) (cb : CtxMap),
      MUTATING_ACTIONS.contains ev.action = false →
      ((runLoop handlers c a r fuel ev cb).2).filter Effect.isReport = []
  | 0, ev, cb, hmut => by simp [runLoop]
  | fuel + 1, ev, cb, hmut => by
    unfold runLoop
    cases hL : loopIter handlers c a r ev cb with
    | raised e effs =>
      have h1 := @loopIter_nonmut handlers c a r ev cb hmut
      rw [hL] at h1
      exact h1
    | finished p ev' effs =>
      have h1 := @loopIter_nonmut handlers c a r ev cb hmut
      rw [hL] at h1
      exact h1
    | again ev' cb' effs =>
      have h1 := @loopIter_nonmut handlers c a r ev cb hmut
      rw [hL] at h1
      simp only [IterResult.effs] at h1
      have h2 : MUTATING_ACTIONS.contains ev'.action = false := by
        rw [loopIter_again_action hL]; exact hmut
      dsimp only
      rw [List.filter_append, h1,
        @runLoop_no_report handlers c a r fuel ev' cb' h2]
      rfl

/-- Over any number of iterations, the loop never emits a start
acknowledgment or a trigger cleanup. -/
theorem runLoop_no_ack_cleanup {handlers : HandlerMap} {c : LambdaContext}
    {a : Action} {r : BaseResourceHandlerRequest} :
    ∀ (fuel : Nat) (ev : HandlerRequest) (cb : CtxMap),
      ((runLoop handlers c a r fuel ev cb).2).filter Effect.isAck = [] ∧
        ((runLoop handlers c a r fuel ev cb).2).filter Effect.isCleanup = []
  | 0, ev, cb => by simp [runLoop]
  | fuel + 1, ev, cb => by
    unfold runLoop
    cases hL : loopIter handlers c a r ev cb with
    | raised e effs =>
      have := loopIter_no_ack_cleanup handlers c a r ev cb
      rw [hL] at this
      exact this
    | finished p ev' effs =>
      have := loopIter_no_ack_cleanup handlers c a r ev cb
      rw [hL] at this
      exact this
    | again ev' cb' effs =>
      have h1 := loopIter_no_ack_cleanup handlers c a r ev cb
      rw [hL] at h1
      simp only [IterResult.effs] at h1
      have h2 := @runLoop_no_ack_cleanup handlers c a r fuel ev' cb'
      dsimp only
      constructor
      · rw [List.filter_append, h1.1, h2.1]; rfl
      · rw [List.filter_append, h1.2, h2.2]; rfl

/-- Every serialized progress event has the core response fields. -/
theorem serialize_schemaCore (p : ProgressEvent) (tr : Bool) (bt : Option String) :
    responseSchemaCore (p.serialize tr bt) = true := by
  obtain ⟨st, ec, msg, rm, cc, cds⟩ := p
  cases st <;> cases ec <;> cases rm <;> cases cc <;> cases tr <;> rfl

/-- A response-mode serialization carries the caller's bearer token. -/
theorem serialize_bearer (p : ProgressEvent) (bt : Option String) :
    ctxGet (p.serialize true bt) "bearerToken" = some (optToken bt) := by
  obtain ⟨st, ec, msg, rm, cc, cds⟩ := p
  cases st <;> cases ec <;> cases rm <;> cases cc <;> rfl

/-- A plain serialization has no bearerToken field at all. -/
theorem serialize_no_bearer (p : ProgressEvent) :
    ctxGet (p.serialize false none) "bearerToken" = none := by
  obtain ⟨st, ec, msg, rm, cc, cds⟩ := p
  cases st <;> cases ec <;> cases rm <;> cases cc <;> rfl

/-- Closed-form characterization of the reinvocation decision, given the
previously stored invocation count. -/
theorem schedule_reinvocation_eq (ev : HandlerRequest) (p : ProgressEvent)
    (c : LambdaContext) (n : Int)
    (hn : pyGetIntDefault ev.requestContext "invocation" 0 = .ok n) :
    schedule_reinvocation ev p c =
      if p.status ≠ OperationStatus.IN_PROGRESS then .ok (false, ev, [])
      else if p.callbackDelaySeconds < 60 ∧
          c.remainingMs > (p.callbackDelaySeconds : Int) * 1200 + 60000 then
        .ok (true,
          { ev with requestContext := ctxSet ev.requestContext "invocation" (.vInt (n + 1)) },
          [Effect.sleepSecs p.callbackDelaySeconds])
      else
        .ok (false,
          { ev with requestContext := ctxSet ev.requestContext "invocation" (.vInt (n + 1)) },
          [Effect.reschedule c.invokedFunctionArn (p.callbackDelaySeconds / 60)]) := by
  by_cases h : p.status = OperationStatus.IN_PROGRESS
  · by_cases hc : p.callbackDelaySeconds < 60 ∧
        c.remainingMs > (p.callbackDelaySeconds : Int) * 1200 + 60000
    · simp [schedule_reinvocation, h, hn, hc, INVOCATION_TIMEOUT_MS]
    · simp [schedule_reinvocation, h, hn, hc, INVOCATION_TIMEOUT_MS]
  · simp [schedule_reinvocation, h, hn]

end Lemmas



section Claims

/-- Claim C1: the Reinvocation Decision is the exact trichotomy — any
previous status other than IN_PROGRESS yields NO_REINVOKE (the loop flag is
false, nothing is slept or rescheduled and the request is untouched); for
IN_PROGRESS, a requested delay d < 60 with remaining budget strictly above
d*1200 + 60000 ms yields LOCAL (flag true, an in-process sleep of exactly d
seconds); every other IN_PROGRESS case yields EXTERNAL (flag false, a
reschedule call, no sleep). -/
theorem C1_schedule_reinvocation_trichotomy
    (ev : HandlerRequest) (p : ProgressEvent) (c : LambdaContext) (n : Int)
    (hn : pyGetIntDefault ev.requestContext "invocation" 0 = .ok n) :
    (p.status ≠ OperationStatus.IN_PROGRESS →
      schedule_reinvocation ev p c = .ok (false, ev, [])) ∧
    (p.status = OperationStatus.IN_PROGRESS →
      p.callbackDelaySeconds < 60 →
      c.remainingMs > (p.callbackDelaySeconds : Int) * 1200 + 60000 →
      schedule_reinvocation ev p c =
        .ok (true,
          { ev with requestContext := ctxSet ev.requestContext "invocation" (.vInt (n + 1)) },
          [Effect.sleepSecs p.callbackDelaySeconds])) ∧
    (p.status = OperationStatus.IN_PROGRESS →
      ¬(p.callbackDelaySeconds < 60 ∧
        c.remainingMs > (p.callbackDelaySeconds : Int) * 1200 + 60000) →
      schedule_reinvocation ev p c =
        .ok (false,
          { ev with requestContext := ctxSet ev.requestContext "invocation" (.vInt (n + 1)) },
          [Effect.reschedule c.invokedFunctionArn (p.callbackDelaySeconds / 60)])) := by
  refine ⟨fun h => ?_, fun h h1 h2 => ?_, fun h hc => ?_⟩
  · rw [schedule_reinvocation_eq ev p c n hn, if_pos h]
  · rw [schedule_reinvocation_eq ev p c n hn, if_neg (not_not_intro h), if_pos ⟨h1, h2⟩]
  · rw [schedule_reinvocation_eq ev p c n hn, if_neg (not_not_intro h), if_neg hc]

/-- Witness: a fresh IN_PROGRESS event with a 5-second delay and ample
budget takes the LOCAL branch, sleeping exactly 5 seconds. -/
theorem C1_witness :
    schedule_reinvocation sampleEv
        { status := .IN_PROGRESS, callbackDelaySeconds := 5 } sampleCtx =
      .ok (true, { sampleEv with requestContext := [("invocation", .vInt 1)] },
        [Effect.sleepSecs 5]) :=
  (C1_schedule_reinvocation_trichotomy sampleEv
    { status := .IN_PROGRESS, callbackDelaySeconds := 5 } sampleCtx 0 rfl).2.1
    rfl (by decide) (by decide)

/-- Claim C7: the invocation counter is bumped by exactly 1 on every loop
continuation — local or external alike — reading 0 when absent; when the
previous status is terminal the whole request, its counter included, is
returned unchanged. -/
theorem C7_invocation_counter
    (ev : HandlerRequest) (p : ProgressEvent) (c : LambdaContext) (n : Int)
    (hn : pyGetIntDefault ev.requestContext "invocation" 0 = .ok n) :
    (p.status ≠ OperationStatus.IN_PROGRESS →
      schedule_reinvocation ev p c = .ok (false, ev, [])) ∧
    (p.status = OperationStatus.IN_PROGRESS →
      ∃ (b : Bool) (effs : List Effect),
        schedule_reinvocation ev p c =
          .ok (b,
            { ev with requestContext := ctxSet ev.requestContext "invocation" (.vInt (n + 1)) },
            effs) ∧
        pyGetIntDefault (ctxSet ev.requestContext "invocation" (.vInt (n + 1)))
          "invocation" 0 = .ok (n + 1)) := by
  constructor
  · intro h
    rw [schedule_reinvocation_eq ev p c n hn, if_pos h]
  · intro h
    by_cases hc : p.callbackDelaySeconds < 60 ∧
        c.remainingMs > (p.callbackDelaySeconds : Int) * 1200 + 60000
    · exact ⟨true, [Effect.sleepSecs p.callbackDelaySeconds],
        by rw [schedule_reinvocation_eq ev p c n hn, if_neg (not_not_intro h), if_pos hc],
        pyGetIntDefault_ctxSet ev.requestContext "invocation" (n + 1) 0⟩
    · exact ⟨false, [Effect.reschedule c.invokedFunctionArn (p.callbackDelaySeconds / 60)],
        by rw [schedule_reinvocation_eq ev p c n hn, if_neg (not_not_intro h), if_neg hc],
        pyGetIntDefault_ctxSet ev.requestContext "invocation" (n + 1) 0⟩

/-- Witness: a resumed event with stored counter 3 continues with counter 4. -/
theorem C7_witness :
    ∃ (b : Bool) (effs : List Effect),
      schedule_reinvocation resumedEv
          { status := .IN_PROGRESS, callbackDelaySeconds := 5 } sampleCtx =
        .ok (b,
          { resumedEv with
            requestContext := ctxSet resumedEv.requestContext "invocation" (.vInt 4) },
          effs) ∧
      pyGetIntDefault (ctxSet resumedEv.requestContext "invocation" (.vInt 4))
        "invocation" 0 = .ok 4 :=
  (C7_invocation_counter resumedEv
    { status := .IN_PROGRESS, callbackDelaySeconds := 5 } sampleCtx 3 rfl).2 rfl

/-- Claim C9: every EXTERNAL reschedule passes the requested delay
floor-divided by 60 as whole minutes to the reschedule service; in
particular a sub-minute delay that failed the LOCAL budget test passes 0. -/
theorem C9_external_minutes
    (ev : HandlerRequest) (p : ProgressEvent) (c : LambdaContext) (n : Int)
    (hn : pyGetIntDefault ev.requestContext "invocation" 0 = .ok n)
    (hip : p.status = OperationStatus.IN_PROGRESS)
    (hc : ¬(p.callbackDelaySeconds < 60 ∧
      c.remainingMs > (p.callbackDelaySeconds : Int) * 1200 + 60000)) :
    schedule_reinvocation ev p c =
      .ok (false,
        { ev with requestContext := ctxSet ev.requestContext "invocation" (.vInt (n + 1)) },
        [Effect.reschedule c.invokedFunctionArn (p.callbackDelaySeconds / 60)]) ∧
    (p.callbackDelaySeconds < 60 → p.callbackDelaySeconds / 60 = 0) := by
  constructor
  · rw [schedule_reinvocation_eq ev p c n hn, if_neg (not_not_intro hip), if_neg hc]
  · exact fun hlt => Nat.div_eq_of_lt hlt

/-- Witness: a 900-second delay reschedules at 15 whole minutes. -/
theorem C9_witness :
    schedule_reinvocation sampleEv
        { status := .IN_PROGRESS, callbackDelaySeconds := 900 } sampleCtx =
      .ok (false, { sampleEv with requestContext := [("invocation", .vInt 1)] },
        [Effect.reschedule "arn:aws:lambda:fn" 15]) :=
  (C9_external_minutes sampleEv
    { status := .IN_PROGRESS, callbackDelaySeconds := 900 } sampleCtx 0 rfl rfl
    (by decide)).1

/-- Claim C4: a registered handler returning IN_PROGRESS for READ or LIST
makes the Dispatcher raise a structured fatal InternalFailure that
propagates out of the dispatch (it is never returned as an accepted
result); the same IN_PROGRESS event for a mutating action is returned
normally. -/
theorem C4_sync_contract (handlers : HandlerMap) (h : Handler) (a : Action)
    (s : Option Unit) (r : BaseResourceHandlerRequest) (cb : CtxMap)
    (p : ProgressEvent)
    (hreg : handlers a = some h) (hret : h s r cb = .ok p)
    (hip : p.status = OperationStatus.IN_PROGRESS) :
    ((a = Action.READ ∨ a = Action.LIST) →
      invoke_handler handlers s r a cb =
        (.error (.handlerError
          { errorCode := .InternalFailure
          , message := "READ and LIST handlers must return synchronously." }),
         [Effect.handlerCalled a])) ∧
    (MUTATING_ACTIONS.contains a = true →
      invoke_handler handlers s r a cb = (.ok p, [Effect.handlerCalled a])) := by
  constructor
  · intro hra
    rcases hra with rfl | rfl <;>
    · unfold invoke_handler
      rw [hreg]
      dsimp only
      rw [hret]
      dsimp only
      rw [hip]
      rfl
  · intro hma
    unfold invoke_handler
    rw [hreg]
    dsimp only
    rw [hret]
    dsimp only
    simp [hma]

/-- Witness: the READ handler that reports IN_PROGRESS makes the dispatch
raise the synchronous-contract error. -/
theorem C4_witness :
    invoke_handler readAsyncHandlers (some ()) sampleRequest .READ [] =
      (.error (.handlerError
        { errorCode := .InternalFailure
        , message := "READ and LIST handlers must return synchronously." }),
       [Effect.handlerCalled .READ]) :=
  (C4_sync_contract readAsyncHandlers readAsyncHandler .READ (some ())
    sampleRequest [] { status := OperationStatus.IN_PROGRESS } rfl rfl rfl).1
    (Or.inl rfl)

/-- Claim C8: with no handler registered for the dispatched action, the
Dispatcher returns a FAILED/InternalFailure progress event — an ordinary
return, not a raise — whatever the action. -/
theorem C8_missing_handler (handlers : HandlerMap) (a : Action) (s : Option Unit)
    (r : BaseResourceHandlerRequest) (cb : CtxMap)
    (hnone : handlers a = none) :
    invoke_handler handlers s r a cb =
      (.ok (ProgressEvent.failed .InternalFailure ("No handler for " ++ a.pyStr)),
       []) := by
  unfold invoke_handler
  rw [hnone]

/-- Witness: dispatching DELETE against an empty registry returns the
no-handler failure event. -/
theorem C8_witness :
    invoke_handler emptyHandlers (some ()) sampleRequest .DELETE [] =
      (.ok (ProgressEvent.failed .InternalFailure "No handler for Action.DELETE"),
       []) :=
  C8_missing_handler emptyHandlers .DELETE (some ()) sampleRequest [] rfl

/-- Claim C2: a loop iteration reports progress to the sink iff the
request's action is mutating — when it is, exactly one report carrying the
iteration's error code, status, resource model and message is emitted; for
READ or LIST no progress report is ever emitted, over any number of
iterations. -/
theorem C2_report_iff_mutating (handlers : HandlerMap) (c : LambdaContext)
    (a : Action) (r : BaseResourceHandlerRequest) (ev : HandlerRequest) :
    (∀ (cb : CtxMap) (p : ProgressEvent) (effsH : List Effect),
      invoke_handler handlers (some ()) r a cb = (.ok p, effsH) →
      (loopIter handlers c a r ev cb).effs.filter Effect.isReport =
        (if MUTATING_ACTIONS.contains ev.action then
          [Effect.report ev.bearerToken p.errorCode p.status (some .IN_PROGRESS)
            p.resourceModel p.message]
        else [])) ∧
    (MUTATING_ACTIONS.contains ev.action = false →
      ∀ (fuel : Nat) (cb : CtxMap),
        ((runLoop handlers c a r fuel ev cb).2).filter Effect.isReport = []) :=
  ⟨fun cb _p _effsH h => loopIter_reports ev cb h,
   fun hmut fuel cb => @runLoop_no_report handlers c a r fuel ev cb hmut⟩

/-- Witness: the mutating UPDATE iteration reports exactly the handler's
SUCCESS outcome to the sink. -/
theorem C2_witness :
    (loopIter updateHandlers sampleCtx .UPDATE sampleRequest sampleEv []).effs.filter
        Effect.isReport =
      [Effect.report "token-1" none .SUCCESS (some .IN_PROGRESS) none "done"] :=
  (C2_report_iff_mutating updateHandlers sampleCtx .UPDATE sampleRequest sampleEv).1
    [] { status := .SUCCESS, message := "done" } [Effect.handlerCalled .UPDATE] rfl

/-- Claim C10: the entrypoint distinguishes fresh from resumed operations by
the emptiness of the deserialized request context — empty: a PENDING to
IN_PROGRESS acknowledgment with no resource model and no trigger cleanup;
non-empty: a trigger cleanup and no acknowledgment. -/
theorem C10_fresh_vs_resumed (handlers : HandlerMap) (fuel : Nat)
    (ev : HandlerRequest) (c : LambdaContext) :
    (ev.requestContext = [] →
      ((call_inner handlers fuel (.wellFormed ev) c).2).filter Effect.isCleanup = [] ∧
      ((call_inner handlers fuel (.wellFormed ev) c).2).filter Effect.isAck =
        [Effect.report ev.bearerToken none .IN_PROGRESS (some .PENDING) none ""]) ∧
    (ev.requestContext ≠ [] →
      ((call_inner handlers fuel (.wellFormed ev) c).2).filter Effect.isAck = [] ∧
      ((call_inner handlers fuel (.wellFormed ev) c).2).filter Effect.isCleanup =
        [Effect.cleanup (ctxGetStr ev.requestContext "cloudWatchEventsRuleName")
          (ctxGetStr ev.requestContext "cloudWatchEventsTargetId")]) := by
  have hrl := @runLoop_no_ack_cleanup handlers c ev.action (toModelled ev) fuel ev
    (initialCallback ev)
  constructor
  · intro h
    constructor
    · simp only [call_inner, parse_request]
      simp [h, List.filter_append, Effect.isCleanup, hrl.2]
    · simp only [call_inner, parse_request]
      simp [h, List.filter_append, Effect.isAck, hrl.1]
  · intro h
    have h' : ev.requestContext.isEmpty = false := by
      cases hctx : ev.requestContext with
      | nil => exact absurd hctx h
      | cons x t => rfl
    constructor
    · simp only [call_inner, parse_request]
      simp [h', List.filter_append, Effect.isAck, hrl.1]
    · simp only [call_inner, parse_request]
      simp [h', List.filter_append, Effect.isCleanup, hrl.2]

/-- Witness: the fresh sample event gets the acknowledgment and no cleanup,
end to end through the inner call. -/
theorem C10_witness :
    ((call_inner updateHandlers 2 (.wellFormed sampleEv) sampleCtx).2).filter
        Effect.isCleanup = [] ∧
      ((call_inner updateHandlers 2 (.wellFormed sampleEv) sampleCtx).2).filter
        Effect.isAck =
        [Effect.report "token-1" none .IN_PROGRESS (some .PENDING) none ""] :=
  (C10_fresh_vs_resumed updateHandlers 2 sampleEv sampleCtx).1 rfl

/-- Claim C5: an error escaping the loop is translated by exactly two
tiers — a structured handler error becomes a terminal FAILED event with its
own code and message, any other exception a FAILED/InternalFailure event
with the exception's message — and the result is returned (not re-raised);
moreover the iteration whose dispatch raised ends the loop at once, so the
handler is never retried. -/
theorem C5_two_tier_translation (handlers : HandlerMap) (fuel : Nat)
    (ev : HandlerRequest) (c : LambdaContext) (e : PyError)
    (hloop : (runLoop handlers c ev.action (toModelled ev) fuel ev
        (initialCallback ev)).1 = some (.error e)) :
    (call_inner handlers fuel (.wellFormed ev) c).1 =
      some (match e with
        | .handlerError he => ProgressEvent.failed he.errorCode he.message
        | .exn m => ProgressEvent.failed .InternalFailure m
        | .baseExn m => ProgressEvent.failed .InternalFailure m) ∧
    (∀ (e' : PyError) (cb : CtxMap) (effs : List Effect) (fuel' : Nat)
        (ev' : HandlerRequest),
      invoke_handler handlers (some ()) (toModelled ev) ev.action cb =
        (.error e', effs) →
      (runLoop handlers c ev.action (toModelled ev) (fuel' + 1) ev' cb).1 =
        some (.error e')) := by
  constructor
  · cases e with
    | handlerError he =>
      simp only [call_inner, parse_request]
      rw [hloop]
      rfl
    | exn m =>
      simp only [call_inner, parse_request]
      rw [hloop]
      rfl
    | baseExn m =>
      simp only [call_inner, parse_request]
      rw [hloop]
      rfl
  · intro e' cb effs fuel' ev' hinv
    unfold runLoop loopIter
    rw [hinv]

/-- Witness: a READ handler raising a structured NotFound ends the inner
call with a FAILED/NotFound progress event. -/
theorem C5_witness :
    (call_inner readErrHandlers 1 (.wellFormed readEv) sampleCtx).1 =
      some (ProgressEvent.failed .NotFound "gone") :=
  (C5_two_tier_translation readErrHandlers 1 readEv sampleCtx
    (.handlerError { errorCode := .NotFound, message := "gone" }) rfl).1

/-- Claim C6: a payload rejected by deserialization or validation yields a
FAILED response with error code InvalidRequest through the full entrypoint,
with an empty collaborator trace — in particular no registered handler
function is ever invoked. -/
theorem C6_invalid_request (handlers : HandlerMap) (fuel : Nat)
    (dumps : SerializedResponse → Except String String) (bt : Option String)
    (msg ty : String) (c : LambdaContext)
    (hd : ∀ r, ∃ s, dumps r = .ok s) :
    (entrypoint handlers fuel dumps (.malformed bt msg ty) c).1 =
      some ((ProgressEvent.failed .InvalidRequest
        (msg ++ " (" ++ ty ++ ")")).serialize true bt) ∧
    (entrypoint handlers fuel dumps (.malformed bt msg ty) c).2 = [] ∧
    ctxGet ((ProgressEvent.failed .InvalidRequest
      (msg ++ " (" ++ ty ++ ")")).serialize true bt) "status" =
      some (.vStr "FAILED") ∧
    ctxGet ((ProgressEvent.failed .InvalidRequest
      (msg ++ " (" ++ ty ++ ")")).serialize true bt) "errorCode" =
      some (.vStr "InvalidRequest") := by
  obtain ⟨s, hs⟩ := hd ((ProgressEvent.failed .InvalidRequest
    (msg ++ " (" ++ ty ++ ")")).serialize true bt)
  refine ⟨?_, ?_, rfl, rfl⟩
  · simp only [entrypoint, call_inner, parse_request]
    simp only [PyError.toCaughtProgress, HandlerError.to_progress_event]
    simp only [ensure_serialize, RawEvent.getBearerToken, hs]
  · simp only [entrypoint, call_inner, parse_request]

/-- Witness: a payload whose deserialization raised on a missing
bearerToken produces the FAILED/InvalidRequest response with an empty
trace. -/
theorem C6_witness :
    (entrypoint updateHandlers 1 (fun _ => Except.ok "")
        (.malformed (some "token-1") "missing bearerToken" "KeyError")
        sampleCtx).1 =
      some ((ProgressEvent.failed .InvalidRequest
        "missing bearerToken (KeyError)").serialize true (some "token-1")) ∧
    (entrypoint updateHandlers 1 (fun _ => Except.ok "")
        (.malformed (some "token-1") "missing bearerToken" "KeyError")
        sampleCtx).2 = [] ∧
    ctxGet ((ProgressEvent.failed .InvalidRequest
      "missing bearerToken (KeyError)").serialize true (some "token-1"))
      "status" = some (.vStr "FAILED") ∧
    ctxGet ((ProgressEvent.failed .InvalidRequest
      "missing bearerToken (KeyError)").serialize true (some "token-1"))
      "errorCode" = some (.vStr "InvalidRequest") :=
  C6_invalid_request updateHandlers 1 (fun _ => Except.ok "") (some "token-1")
    "missing bearerToken" "KeyError" sampleCtx (fun _ => ⟨"", rfl⟩)

/-- Claim C3, counterexample: the claim asserts that even a response built
by the outermost fallback carries the inbound bearer token.  On an inbound
event whose bearer token is "token-1", making `json.dumps` fail forces the
fallback, and the returned response has no bearerToken field at all. -/
theorem C3_counterexample :
    (entrypoint updateHandlers 2 (fun _ => Except.error "Unserializable")
        (.wellFormed sampleEv) sampleCtx).1 =
      some ((ProgressEvent.failed .InternalFailure "Unserializable").serialize
        false none) ∧
    ctxGet ((ProgressEvent.failed .InternalFailure "Unserializable").serialize
      false none) "bearerToken" = none ∧
    (RawEvent.wellFormed sampleEv).getBearerToken = some "token-1" :=
  ⟨rfl, rfl, rfl⟩

/-- Claim C3 as amended: every response the entrypoint yields is
structurally well formed (status, message, callbackDelaySeconds); a
normal-path response additionally carries the inbound bearer token, while a
response built by the outermost fallback is the plain serialization of a
FAILED/InternalFailure event and carries no bearer token. -/
theorem C3_response_wellformed_amended (handlers : HandlerMap) (fuel : Nat)
    (dumps : SerializedResponse → Except String String) (raw : RawEvent)
    (c : LambdaContext) (r : SerializedResponse)
    (h : (entrypoint handlers fuel dumps raw c).1 = some r) :
    responseSchemaCore r = true ∧
    ((∃ p : ProgressEvent, r = p.serialize true raw.getBearerToken ∧
        ctxGet r "bearerToken" = some (optToken raw.getBearerToken)) ∨
      (∃ m : String,
        r = (ProgressEvent.failed .InternalFailure m).serialize false none ∧
        ctxGet r "bearerToken" = none)) := by
  simp only [entrypoint] at h
  cases hI : (call_inner handlers fuel raw c).1 with
  | none => rw [hI] at h; cases h
  | some p =>
    rw [hI] at h
    dsimp only at h
    unfold ensure_serialize at h
    dsimp only at h
    cases hd : dumps (p.serialize true raw.getBearerToken) with
    | error m =>
      rw [hd] at h
      dsimp only at h
      cases h
      exact ⟨serialize_schemaCore _ _ _, Or.inr ⟨m, rfl, serialize_no_bearer _⟩⟩
    | ok s =>
      rw [hd] at h
      dsimp only at h
      cases h
      exact ⟨serialize_schemaCore _ _ _, Or.inl ⟨p, rfl, serialize_bearer _ _⟩⟩

/-- Witness: the normal-path UPDATE run yields a well-formed response
carrying the inbound bearer token. -/
theorem C3_witness :
    responseSchemaCore
        [("status", Value.vStr "SUCCESS"), ("message", Value.vStr "done"),
          ("callbackDelaySeconds", Value.vInt 0),
          ("bearerToken", Value.vStr "token-1")] = true ∧
      ((∃ p : ProgressEvent,
          [("status", Value.vStr "SUCCESS"), ("message", Value.vStr "done"),
            ("callbackDelaySeconds", Value.vInt 0),
            ("bearerToken", Value.vStr "token-1")] =
            p.serialize true (RawEvent.wellFormed sampleEv).getBearerToken ∧
          ctxGet [("status", Value.vStr "SUCCESS"), ("message", Value.vStr "done"),
            ("callbackDelaySeconds", Value.vInt 0),
            ("bearerToken", Value.vStr "token-1")] "bearerToken" =
            some (optToken (RawEvent.wellFormed sampleEv).getBearerToken)) ∨
        (∃ m : String,
          [("status", Value.vStr "SUCCESS"), ("message", Value.vStr "done"),
            ("callbackDelaySeconds", Value.vInt 0),
            ("bearerToken", Value.vStr "token-1")] =
            (ProgressEvent.failed .InternalFailure m).serialize false none ∧
          ctxGet [("status", Value.vStr "SUCCESS"), ("message", Value.vStr "done"),
            ("callbackDelaySeconds", Value.vInt 0),
            ("bearerToken", Value.vStr "token-1")] "bearerToken" = none)) :=
  C3_response_wellformed_amended updateHandlers 2 (fun _ => Except.ok "")
    (.wellFormed sampleEv) sampleCtx _ rfl

end Claims

end CfnPlugin
